import Mathlib

/-!
Shallow embedding of the bounded real-time identification (attendance) session
of `src/src/TakeAttendancePage.tsx` and the result computation of
`src/src/ClassroomPage.tsx` (`AttendanceResultsPage`).

Modelling conventions:
* JavaScript `Date` values (timestamps, `Date.now()`) are `Nat` (milliseconds).
* JavaScript numbers used for confidences are `ℚ`; the mock recognizer's
  `Math.random()` draw is passed in explicitly as a rational `r` with the
  JavaScript contract `0 ≤ r < 1` recorded in `ValidStep`.
* The React component state (`useState` hooks plus the `intervalRef`) is the
  record `PageState`; each event handler of the source becomes a function
  `PageState → ...`.  The camera/canvas refs and the purely visual
  `isProcessing` flag are not part of any claim and are reduced to the
  `refsReady` boolean guard parameter of `detectAndRecognizeFaces`.
* `setInterval`/`clearInterval` become the `intervalActive` flag plus an
  explicit `tick` step that runs the interval callback of
  `startAttendanceSession`.
-/

namespace Attendance

/-- `Student` of `TakeAttendancePage.tsx` (the optional `faceEmbedding`
field is never read by the modelled code and is omitted). -/
structure Student where
  id : String
  name : String
  rollNumber : String
  profileImage : Option String := none
deriving DecidableEq, Repr

/-- `AttendanceRecord` of `TakeAttendancePage.tsx`. -/
structure AttendanceRecord where
  studentId : String
  name : String
  rollNumber : String
  timestamp : Nat
  confidence : ℚ
deriving DecidableEq, Repr

/-- `AttendanceSession` of `TakeAttendancePage.tsx`. -/
structure AttendanceSession where
  sessionId : String
  classroomCode : String
  timeSlot : Nat
  maxStudents : Nat
  detectedStudents : List AttendanceRecord
  isActive : Bool
  startTime : Nat
deriving DecidableEq, Repr

/-- The component state of `TakeAttendancePage`: the `useState` hooks the
modelled handlers read or write, the `code` route parameter, and the
`intervalRef` (as a boolean). -/
structure PageState where
  code : Option String
  isRecording : Bool
  timeSlot : Nat
  maxStudents : Nat
  currentSession : Option AttendanceSession
  registeredStudents : List Student
  detectedFaces : List AttendanceRecord
  timeRemaining : Nat
  intervalActive : Bool
deriving DecidableEq, Repr

/-- The payload `endAttendanceSession` passes to the results page via
`navigate(..., { state: {...} })`. -/
structure SessionResult where
  session : AttendanceSession
  presentStudents : List AttendanceRecord
  absentStudents : List Student
deriving DecidableEq, Repr

/-- Observable outcome of one run of the frame handler.  The source reports a
success toast when a detection is appended and produces no output at all on
the other paths; no error outcome exists anywhere in the handler. -/
inductive FrameOutcome where
  /-- The guard `!videoRef.current || !canvasRef.current || !isRecording`
  returned early: nothing happened, nothing was reported. -/
  | skipped : FrameOutcome
  /-- `processFrameForFaceRecognition` ran but appended nothing (mock said no
  face, capacity full, or no available student); nothing was reported. -/
  | noDetection : FrameOutcome
  /-- A new `AttendanceRecord` was appended to `detectedFaces` and a success
  toast was shown. -/
  | detected (newDetection : AttendanceRecord) : FrameOutcome
deriving DecidableEq, Repr

/-- The hard-coded mock roster of `loadRegisteredStudents`. -/
def mockStudents : List Student :=
  [ { id := "1", name := "John Doe", rollNumber := "CS001",
      profileImage := some "/api/placeholder/150/150" },
    { id := "2", name := "Jane Smith", rollNumber := "CS002",
      profileImage := some "/api/placeholder/150/150" },
    { id := "3", name := "Mike Johnson", rollNumber := "CS003",
      profileImage := some "/api/placeholder/150/150" },
    { id := "4", name := "Sarah Wilson", rollNumber := "CS004",
      profileImage := some "/api/placeholder/150/150" },
    { id := "5", name := "David Brown", rollNumber := "CS005",
      profileImage := some "/api/placeholder/150/150" },
    { id := "6", name := "Lisa Davis", rollNumber := "CS006",
      profileImage := some "/api/placeholder/150/150" } ]

/-- `registeredStudents.filter(student => !detectedFaces.some(detected =>
detected.studentId === student.id))` — the expression the source uses both as
`availableStudents` in `processFrameForFaceRecognition` and (inline) as
`absentStudents` in `endAttendanceSession`. -/
def availableStudents (st : PageState) : List Student :=
  st.registeredStudents.filter
    (fun student => !(st.detectedFaces.any
      (fun detected => detected.studentId == student.id)))

/-- The `AttendanceRecord` literal built in `processFrameForFaceRecognition`:
`confidence: 0.85 + Math.random() * 0.1`. -/
def newDetectionFor (randomStudent : Student) (r : ℚ) (now : Nat) :
    AttendanceRecord :=
  { studentId := randomStudent.id,
    name := randomStudent.name,
    rollNumber := randomStudent.rollNumber,
    timestamp := now,
    confidence := 85/100 + r * (1/10) }

/-- `processFrameForFaceRecognition` of `TakeAttendancePage.tsx` (lines
130–163).  `mockDetection` is the mocked backend response
(`Math.random() > 0.7`), `pick` resolves
`Math.floor(Math.random() * availableStudents.length)` (the source index is
always `pick % length` for some `pick`), `r` is the `Math.random()` draw for
the confidence, `now` is `new Date()`.  Note the source validates nothing:
there is no roster check and no confidence-range check, and no rejection is
ever reported. -/
def processFrameForFaceRecognition (st : PageState) (mockDetection : Bool)
    (pick : Nat) (r : ℚ) (now : Nat) : PageState × FrameOutcome :=
  if mockDetection ∧ st.detectedFaces.length < st.maxStudents then
    if h : 0 < (availableStudents st).length then
      let randomStudent :=
        (availableStudents st).get ⟨pick % (availableStudents st).length,
          Nat.mod_lt _ h⟩
      let newDetection := newDetectionFor randomStudent r now
      ({st with detectedFaces := st.detectedFaces ++ [newDetection]},
        FrameOutcome.detected newDetection)
    else (st, FrameOutcome.noDetection)
  else (st, FrameOutcome.noDetection)

/-- `detectAndRecognizeFaces` of `TakeAttendancePage.tsx` (lines 166–194):
the guard `if (!videoRef.current || !canvasRef.current || !isRecording)
return;` is an early return with no error and no state change; `refsReady`
stands for `videoRef.current && canvasRef.current`. -/
def detectAndRecognizeFaces (st : PageState) (refsReady mockDetection : Bool)
    (pick : Nat) (r : ℚ) (now : Nat) : PageState × FrameOutcome :=
  if refsReady ∧ st.isRecording then
    processFrameForFaceRecognition st mockDetection pick r now
  else (st, FrameOutcome.skipped)

/-- `startAttendanceSession` of `TakeAttendancePage.tsx` (lines 197–227),
up to the installation of the interval (the interval callback itself is
`tick`).  `now` is `Date.now()` / `new Date()`. -/
def startAttendanceSession (st : PageState) (now : Nat) : PageState :=
  match st.code with
  | none => st
  | some code =>
    let session : AttendanceSession :=
      { sessionId := "session_" ++ toString now,
        classroomCode := code,
        timeSlot := st.timeSlot,
        maxStudents := st.maxStudents,
        detectedStudents := [],
        isActive := true,
        startTime := now }
    { st with currentSession := some session,
              isRecording := true,
              timeRemaining := st.timeSlot * 60,
              detectedFaces := [],
              intervalActive := true }

/-- `endAttendanceSession` of `TakeAttendancePage.tsx` (lines 230–267).
Returns the updated component state together with the result payload passed
to `navigate` (or `none` when `currentSession` is null — the source then
navigates nowhere).  Note the source never clears `currentSession` and never
touches `detectedFaces` here. -/
def endAttendanceSession (st : PageState) : PageState × Option SessionResult :=
  ({ st with isRecording := false, intervalActive := false },
    match st.currentSession with
    | none => none
    | some session =>
      let updatedSession :=
        { session with detectedStudents := st.detectedFaces, isActive := false }
      some { session := updatedSession,
             presentStudents := st.detectedFaces,
             absentStudents := availableStudents st })

/-- The `setInterval` callback installed by `startAttendanceSession`:
`setTimeRemaining(prev => { if (prev <= 1) { endAttendanceSession(); return 0; }
return prev - 1; })`.  The decision reads only the `timeRemaining` counter —
never the wall clock or `startTime`. -/
def tick (st : PageState) : PageState :=
  if st.timeRemaining ≤ 1 then
    { (endAttendanceSession st).1 with timeRemaining := 0 }
  else { st with timeRemaining := st.timeRemaining - 1 }

/-- `totalStudents` of `AttendanceResultsPage` (`ClassroomPage.tsx` line 282). -/
def totalStudents (presentStudents : List AttendanceRecord)
    (absentStudents : List Student) : Nat :=
  presentStudents.length + absentStudents.length

/-- `attendancePercentage` of `AttendanceResultsPage` (`ClassroomPage.tsx`
line 283): `totalStudents > 0 ? (presentStudents.length / totalStudents) * 100
: 0`. -/
def attendancePercentage (presentStudents : List AttendanceRecord)
    (absentStudents : List Student) : ℚ :=
  if 0 < totalStudents presentStudents absentStudents then
    ((presentStudents.length : ℚ) /
      (totalStudents presentStudents absentStudents : ℚ)) * 100
  else 0

/-- The events that drive the page: the duration dropdown, the start button,
one firing of the countdown interval, one firing of the 2-second detection
interval, and the end button / timer-driven end. -/
inductive Step where
  | setTimeSlot (n : Nat) : Step
  | start (now : Nat) : Step
  | tick : Step
  | frame (refsReady mockDetection : Bool) (pick : Nat) (r : ℚ) (now : Nat) : Step
  | endSession : Step

/-- Run one step on the component state (results and outcomes discarded). -/
def stepRun (st : PageState) : Step → PageState
  | Step.setTimeSlot n => { st with timeSlot := n }
  | Step.start now => startAttendanceSession st now
  | Step.tick => tick st
  | Step.frame refsReady mockDetection pick r now =>
      (detectAndRecognizeFaces st refsReady mockDetection pick r now).1
  | Step.endSession => (endAttendanceSession st).1

/-- Environment contract on a step: the confidence draw models
`Math.random()`, whose JavaScript contract is `0 ≤ r < 1`. -/
def ValidStep : Step → Prop
  | Step.frame _ _ _ r _ => 0 ≤ r ∧ r < 1
  | _ => True

/-- The component state at mount: `useState` initial values (`timeSlot = 5`,
`maxStudents = 6`, nothing recording), with `registeredStudents` the roster
delivered by `loadRegisteredStudents` (mocked in the source as
`mockStudents`; kept parametric here, the mount effect runs before any
session so the roster is fixed for the whole trace).  Member ids are assumed
pairwise distinct, as in the mock roster. -/
def initState (codeParam : Option String) (roster : List Student) : PageState :=
  { code := codeParam,
    isRecording := false,
    timeSlot := 5,
    maxStudents := 6,
    currentSession := none,
    registeredStudents := roster,
    detectedFaces := [],
    timeRemaining := 0,
    intervalActive := false }

/-- States the page can actually be in: the mount state followed by any
sequence of user/timer/recognizer events whose random draws respect the
`Math.random()` contract. -/
inductive Reachable : PageState → Prop
  | init (codeParam : Option String) (roster : List Student)
      (hroster : (roster.map (fun s => s.id)).Nodup) :
      Reachable (initState codeParam roster)
  | step {st : PageState} (s : Step) (hs : ValidStep s) (hst : Reachable st) :
      Reachable (stepRun st s)

/-- The ids currently in the accepted set. -/
def detectedIds (st : PageState) : List String :=
  st.detectedFaces.map (fun d => d.studentId)

/-- The ids of the session's roster. -/
def rosterIds (st : PageState) : List String :=
  st.registeredStudents.map (fun s => s.id)


theorem mem_availableStudents {st : PageState} {s : Student} :
    s ∈ availableStudents st ↔
      s ∈ st.registeredStudents ∧ s.id ∉ detectedIds st := by
  simp [availableStudents, List.mem_filter, detectedIds, List.any_eq_true, beq_iff_eq]

theorem processFrame_cases (st : PageState) (mockDetection : Bool)
    (pick : Nat) (r : ℚ) (now : Nat) :
    processFrameForFaceRecognition st mockDetection pick r now
        = (st, FrameOutcome.noDetection) ∨
    ∃ s : Student, s ∈ availableStudents st ∧
      st.detectedFaces.length < st.maxStudents ∧
      processFrameForFaceRecognition st mockDetection pick r now =
        ({st with detectedFaces := st.detectedFaces ++ [newDetectionFor s r now]},
          FrameOutcome.detected (newDetectionFor s r now)) := by
  unfold processFrameForFaceRecognition
  split
  · next hcond =>
    split
    · next h =>
      right
      exact ⟨(availableStudents st).get
          ⟨pick % (availableStudents st).length, Nat.mod_lt _ h⟩,
        List.get_mem _ _ _, hcond.2, rfl⟩
    · left; rfl
  · left; rfl

/-- The inductive invariant of the attendance page: accepted detections have
pairwise-distinct member ids drawn from the roster, confidences generated by
the mock recognizer, and their count never exceeds `maxStudents`. -/
def Inv (st : PageState) : Prop :=
  (detectedIds st).Nodup ∧
  (rosterIds st).Nodup ∧
  (∀ d ∈ st.detectedFaces, d.studentId ∈ rosterIds st ∧
    (85 : ℚ)/100 ≤ d.confidence ∧ d.confidence < (95 : ℚ)/100) ∧
  st.detectedFaces.length ≤ st.maxStudents

theorem inv_initState (codeParam : Option String) (roster : List Student)
    (hroster : (roster.map (fun s => s.id)).Nodup) :
    Inv (initState codeParam roster) := by
  refine ⟨by simp [detectedIds, initState], ?_, by simp [initState], by simp [initState]⟩
  simpa [rosterIds, initState] using hroster

theorem inv_stepRun {st : PageState} (s : Step) (hs : ValidStep s) (h : Inv st) :
    Inv (stepRun st s) := by
  obtain ⟨hnodup, hroster, hmem, hlen⟩ := h
  cases s with
  | setTimeSlot n => exact ⟨hnodup, hroster, hmem, hlen⟩
  | start now =>
    simp only [stepRun, startAttendanceSession]
    cases hc : st.code with
    | none => exact ⟨hnodup, hroster, hmem, hlen⟩
    | some c =>
      exact ⟨by simp [detectedIds], hroster, by simp, by simp⟩
  | tick =>
    simp only [stepRun, tick]
    split
    · exact ⟨hnodup, hroster, hmem, hlen⟩
    · exact ⟨hnodup, hroster, hmem, hlen⟩
  | endSession => exact ⟨hnodup, hroster, hmem, hlen⟩
  | frame ready det pick r now =>
    simp only [stepRun, detectAndRecognizeFaces]
    split
    · rcases processFrame_cases st det pick r now with hcase | ⟨w, hwmem, hlt, hcase⟩
      · rw [hcase]; exact ⟨hnodup, hroster, hmem, hlen⟩
      · rw [hcase]
        obtain ⟨hr0, hr1⟩ := hs
        obtain ⟨hw_roster, hw_not⟩ := mem_availableStudents.mp hwmem
        refine ⟨?_, hroster, ?_, ?_⟩
        · simp only [detectedIds, List.map_append, List.map_cons, List.map_nil]
          rw [List.nodup_append]
          refine ⟨hnodup, List.nodup_singleton _, ?_⟩
          intro a ha hb
          simp only [newDetectionFor, List.mem_singleton] at hb
          subst hb
          exact hw_not ha
        · intro d hd
          rcases List.mem_append.mp hd with hd | hd
          · exact hmem d hd
          · simp only [List.mem_singleton] at hd
            subst hd
            refine ⟨List.mem_map.mpr ⟨w, hw_roster, rfl⟩, ?_, ?_⟩
            · simp only [newDetectionFor]
              nlinarith
            · simp only [newDetectionFor]
              nlinarith
        · simp only [List.length_append, List.length_singleton]
          omega
    · exact ⟨hnodup, hroster, hmem, hlen⟩

theorem reachable_inv {st : PageState} (h : Reachable st) : Inv st := by
  induction h with
  | init c roster hroster => exact inv_initState c roster hroster
  | step s hs _ ih => exact inv_stepRun s hs ih

theorem detected_subset_roster {st : PageState} (h : Inv st) :
    detectedIds st ⊆ rosterIds st := by
  intro x hx
  obtain ⟨d, hd, rfl⟩ := List.mem_map.mp hx
  exact (h.2.2.1 d hd).1

theorem detected_length_le_roster {st : PageState} (h : Inv st) :
    st.detectedFaces.length ≤ st.registeredStudents.length := by
  have h1 : (detectedIds st).length ≤ (rosterIds st).length :=
    (List.subperm_of_subset h.1 (detected_subset_roster h)).length_le
  simpa [detectedIds, rosterIds] using h1

theorem present_absent_split {st : PageState} (h : Inv st) :
    st.detectedFaces.length + (availableStudents st).length
      = st.registeredStudents.length := by
  classical
  set f : Student → Bool :=
    fun s => st.detectedFaces.any (fun d => d.studentId == s.id) with hf
  have hsplit := List.length_eq_length_filter_add (l := st.registeredStudents) f
  have hperm : List.Perm ((st.registeredStudents.filter f).map (fun s => s.id)) (detectedIds st) := by
    rw [List.perm_ext_iff_of_nodup]
    · intro x
      constructor
      · intro hx
        obtain ⟨s, hs, rfl⟩ := List.mem_map.mp hx
        obtain ⟨hsr, hsf⟩ := List.mem_filter.mp hs
        simp only [hf, List.any_eq_true, beq_iff_eq] at hsf
        obtain ⟨d, hd, hid⟩ := hsf
        exact hid ▸ List.mem_map.mpr ⟨d, hd, rfl⟩
      · intro hx
        have hxr : x ∈ rosterIds st := detected_subset_roster h hx
        obtain ⟨s, hs, rfl⟩ := List.mem_map.mp hxr
        refine List.mem_map.mpr ⟨s, List.mem_filter.mpr ⟨hs, ?_⟩, rfl⟩
        simp only [hf, List.any_eq_true, beq_iff_eq]
        obtain ⟨d, hd, hid⟩ := List.mem_map.mp hx
        exact ⟨d, hd, hid⟩
    · exact h.2.1.sublist (List.Sublist.map (fun s => s.id) (List.filter_sublist st.registeredStudents))
    · exact h.1
  have hflen : (st.registeredStudents.filter f).length = st.detectedFaces.length := by
    have := hperm.length_eq
    simpa [detectedIds] using this
  have havail : (availableStudents st).length
      = (st.registeredStudents.filter (fun s => !(f s))).length := rfl
  omega

theorem partition_of_inv {st : PageState} (h : Inv st) :
    ((st.detectedFaces.map fun d => d.studentId).toFinset ∩
        ((availableStudents st).map fun s => s.id).toFinset = ∅) ∧
    ((st.detectedFaces.map fun d => d.studentId).toFinset ∪
        ((availableStudents st).map fun s => s.id).toFinset
      = (st.registeredStudents.map fun s => s.id).toFinset) := by
  classical
  constructor
  · rw [Finset.eq_empty_iff_forall_not_mem]
    intro x hx
    rw [Finset.mem_inter, List.mem_toFinset, List.mem_toFinset] at hx
    obtain ⟨hxd, hxa⟩ := hx
    obtain ⟨s, hs, rfl⟩ := List.mem_map.mp hxa
    exact (mem_availableStudents.mp hs).2 hxd
  · ext x
    rw [Finset.mem_union, List.mem_toFinset, List.mem_toFinset, List.mem_toFinset]
    constructor
    · rintro (hx | hx)
      · exact detected_subset_roster h hx
      · obtain ⟨s, hs, rfl⟩ := List.mem_map.mp hx
        exact List.mem_map.mpr ⟨s, (mem_availableStudents.mp hs).1, rfl⟩
    · intro hx
      obtain ⟨s, hs, rfl⟩ := List.mem_map.mp hx
      by_cases hd : s.id ∈ detectedIds st
      · exact Or.inl hd
      · exact Or.inr (List.mem_map.mpr ⟨s, mem_availableStudents.mpr ⟨hs, hd⟩, rfl⟩)


/-- Mount state of the concrete runs: classroom code `"ABC"`, mock roster. -/
def demoInit : PageState := initState (some "ABC") mockStudents

/-- Session started at `t = 0` (default 5-minute slot, `timeRemaining = 300`). -/
def demoActive : PageState := stepRun demoInit (Step.start 0)

/-- One accepted detection (student `"1"`, confidence `0.9`, at `t = 1`). -/
def demoDetected1 : PageState :=
  stepRun demoActive (Step.frame true true 0 (1/2) 1)

/-- The payload the session end hands to the results page from
`demoDetected1`. -/
def demoResult : SessionResult :=
  ((endAttendanceSession demoDetected1).2).getD
    ⟨⟨"", "", 0, 0, [], false, 0⟩, [], []⟩

/-- The session of `demoDetected1` ended by the caller. -/
def demoTerminal : PageState := stepRun demoDetected1 Step.endSession

/-- All six mock students accepted; the capacity ceiling
`min(maxStudents, |roster|) = 6` is reached. -/
def demoFull : PageState :=
  stepRun (stepRun (stepRun (stepRun (stepRun demoDetected1
    (Step.frame true true 0 (1/2) 2)) (Step.frame true true 0 (1/2) 3))
    (Step.frame true true 0 (1/2) 4)) (Step.frame true true 0 (1/2) 5))
    (Step.frame true true 0 (1/2) 6)

theorem demoInit_reachable : Reachable demoInit :=
  Reachable.init (some "ABC") mockStudents (by decide)

theorem demoActive_reachable : Reachable demoActive :=
  Reachable.step (Step.start 0) trivial demoInit_reachable

theorem demoDetected1_reachable : Reachable demoDetected1 :=
  Reachable.step (Step.frame true true 0 (1/2) 1) (by constructor <;> norm_num)
    demoActive_reachable



/-- Projections of a session-end result. -/
theorem endSession_result {st : PageState} {res : SessionResult}
    (hres : (endAttendanceSession st).2 = some res) :
    res.presentStudents = st.detectedFaces ∧
    res.absentStudents = availableStudents st := by
  unfold endAttendanceSession at hres
  cases hc : st.currentSession with
  | none => rw [hc] at hres; simp at hres
  | some session =>
    rw [hc] at hres
    simp only [Option.some.injEq] at hres
    subst hres
    exact ⟨rfl, rfl⟩

/-- State just before timer expiry (after 299 ticks of `demoActive`),
written directly: the counter is at 1, the session startTime is 0. -/
def timerStateA : PageState := { demoActive with timeRemaining := 1 }

/-- Same as `timerStateA` except the recorded start instant is `10^6` ms
later, so under a wall-clock deadline its expiry would differ by `10^6` ms. -/
def timerStateB : PageState :=
  { timerStateA with currentSession :=
      timerStateA.currentSession.map (fun s => { s with startTime := 1000000 }) }

/-- Override the recorded start instant of the current session (used to state
that the timer never reads it). -/
def withStartTime (st : PageState) (t : Nat) : PageState :=
  { st with currentSession :=
      st.currentSession.map (fun s => { s with startTime := t }) }

/-- **C1** (counterexample).  With the mock roster of six and
`maxStudents = 6`, after the sixth accepted detection the accepted count
equals `min(capacity, |roster|)`, yet no transition happened: the session is
still recording, its `currentSession` still says `isActive = true`, and even
a further frame leaves it recording.  The code keeps the session open until
the timer expires or the caller ends it, contradicting the claimed
capacity-triggered `Active → Completed` transition. -/
theorem capacity_reached_session_stays_open :
    demoFull.detectedFaces.length
        = min demoFull.maxStudents demoFull.registeredStudents.length ∧
    demoFull.isRecording = true ∧
    (demoFull.currentSession.map (fun s => s.isActive)) = some true ∧
    (stepRun demoFull (Step.frame true true 0 (1/2) 7)).isRecording = true := by
  refine ⟨by decide, by decide, by decide, by decide⟩

/-- **C1** (amended): reaching the capacity ceiling does not terminate the
session.  A frame never changes `isRecording` or `currentSession`, and once
`detectedFaces.length` has reached `maxStudents` it leaves the state entirely
unchanged; only the timer or an explicit `endAttendanceSession` call ends the
session. -/
theorem capacity_reached_does_not_end_session (st : PageState)
    (refsReady mockDetection : Bool) (pick : Nat) (r : ℚ) (now : Nat) :
    ((detectAndRecognizeFaces st refsReady mockDetection pick r now).1.isRecording
        = st.isRecording ∧
      (detectAndRecognizeFaces st refsReady mockDetection pick r now).1.currentSession
        = st.currentSession) ∧
    (st.maxStudents ≤ st.detectedFaces.length →
      (detectAndRecognizeFaces st refsReady mockDetection pick r now).1 = st) := by
  constructor
  · unfold detectAndRecognizeFaces
    split
    · rcases processFrame_cases st mockDetection pick r now with hc | ⟨w, _, _, hc⟩ <;>
        rw [hc] <;> exact ⟨rfl, rfl⟩
    · exact ⟨rfl, rfl⟩
  · intro hfull
    unfold detectAndRecognizeFaces
    split
    · rcases processFrame_cases st mockDetection pick r now with hc | ⟨w, _, hlt, hc⟩
      · rw [hc]
      · omega
    · rfl

/-- **C1** (witness for the amended theorem, at the concrete full session). -/
theorem capacity_reached_does_not_end_session_witness :
    (detectAndRecognizeFaces demoFull true true 0 (1/2) 7).1 = demoFull :=
  (capacity_reached_does_not_end_session demoFull true true 0 (1/2) 7).2 (by decide)

/-- **C5** (counterexample): session expiry is decided by the decremented
`timeRemaining` counter, not by a wall-clock deadline `startedAt + D`.
`tick` (the interval callback) takes no clock input at all; two states that
differ only in the recorded `startTime` — so their claimed wall-clock
deadlines lie `10^6` ms apart — expire on the same tick, while a state with
the same `startTime` as the first but a high counter does not expire at all. -/
theorem timer_ignores_start_instant :
    (tick timerStateA).isRecording = false ∧
    (tick timerStateB).isRecording = false ∧
    timerStateA.currentSession.map (fun s => s.startTime) = some 0 ∧
    timerStateB.currentSession.map (fun s => s.startTime) = some 1000000 ∧
    demoActive.currentSession.map (fun s => s.startTime) = some 0 ∧
    (tick demoActive).isRecording = true ∧
    (tick demoActive).timeRemaining = 299 := by
  refine ⟨by decide, by decide, by decide, by decide, by decide, by decide, by decide⟩

/-- **C5** (amended): the timer is the resampled counter the spec forbids:
a tick ends the session exactly when the counter has run down (or it was
already not recording), otherwise it just decrements the counter; and the
tick's countdown/termination behaviour is invariant under changing the
recorded start instant, which it never reads. -/
theorem timer_counter_driven (st : PageState) (t : Nat) :
    ((tick st).isRecording = false ↔
        st.timeRemaining ≤ 1 ∨ st.isRecording = false) ∧
    (1 < st.timeRemaining →
        tick st = { st with timeRemaining := st.timeRemaining - 1 }) ∧
    (tick (withStartTime st t)).isRecording = (tick st).isRecording ∧
    (tick (withStartTime st t)).timeRemaining = (tick st).timeRemaining := by
  by_cases hle : st.timeRemaining ≤ 1 <;>
    simp [tick, withStartTime, endAttendanceSession, hle]

/-- **C5** (witness for the amended theorem at the freshly started session). -/
theorem timer_counter_driven_witness :
    tick demoActive = { demoActive with timeRemaining := 299 } := by
  have h := (timer_counter_driven demoActive 0).2.1 (by decide)
  simpa using h

/-- **C6** (counterexample): once the session has been ended, a further frame
submission is *silently* dropped, not rejected with an explicit
`SessionNotActive` error: the handler's guard just returns, the state is
unchanged and the only "outcome" is the silent `FrameOutcome.skipped` — no
error value exists anywhere in the handler. -/
theorem terminal_frame_silently_dropped :
    demoTerminal.isRecording = false ∧
    detectAndRecognizeFaces demoTerminal true true 0 (1/2) 9
        = (demoTerminal, FrameOutcome.skipped) :=
  ⟨rfl, rfl⟩

/-- **C6** (amended): on a non-recording (terminal or never-started) session
every frame submission is a silent no-op: unchanged state — in particular the
accepted set — and the errorless `FrameOutcome.skipped`. -/
theorem inactive_session_frame_noop (st : PageState)
    (refsReady mockDetection : Bool) (pick : Nat) (r : ℚ) (now : Nat)
    (h : st.isRecording = false) :
    detectAndRecognizeFaces st refsReady mockDetection pick r now
        = (st, FrameOutcome.skipped) := by
  unfold detectAndRecognizeFaces
  simp [h]

/-- **C6** (witness for the amended theorem at the ended demo session). -/
theorem inactive_session_frame_noop_witness :
    detectAndRecognizeFaces demoTerminal true true 0 (1/2) 9
        = (demoTerminal, FrameOutcome.skipped) :=
  inactive_session_frame_noop demoTerminal true true 0 (1/2) 9 rfl

/-- **C7**: `endAttendanceSession` is idempotent — run on the state produced
by a previous run it returns that state and the identical result payload (the
source recomputes the payload from `currentSession`, `detectedFaces` and
`registeredStudents`, none of which the first run modified, and has no error
path). -/
theorem endAttendanceSession_idempotent (st : PageState) :
    endAttendanceSession (endAttendanceSession st).1 = endAttendanceSession st := by
  unfold endAttendanceSession
  cases st.currentSession <;> rfl

/-- **C9** (counterexample): the intake validates nothing.  Feeding the
intake a recognizer draw `r = 10` produces the event confidence
`0.85 + 10·0.1 = 1.85 ∉ [0,1]`; the event is *accepted* — state changed,
success outcome carrying that confidence — instead of being rejected with
`InvalidConfidence` (and no rejection reason of any kind exists in the
code). -/
theorem invalid_confidence_accepted :
    (processFrameForFaceRecognition demoActive true 0 10 1).2
        = FrameOutcome.detected
            { studentId := "1", name := "John Doe", rollNumber := "CS001",
              timestamp := 1, confidence := 85/100 + 10 * (1/10) } ∧
    ¬ ((85 : ℚ)/100 + 10 * (1/10) ≤ 1) ∧
    (processFrameForFaceRecognition demoActive true 0 10 1).1.detectedFaces.length = 1 ∧
    demoActive.detectedFaces.length = 0 :=
  ⟨rfl, by norm_num, by decide, by decide⟩

/-- **C9** (amended): `processFrameForFaceRecognition` has no
`UnknownMember` or `InvalidConfidence` rejection (nor any other): every run
either changes nothing and reports nothing, or unconditionally appends a
detection whose member is drawn from the roster's not-yet-detected students
(an unknown member can never even be submitted) and whose confidence is
`0.85 + r·0.1` for whatever draw `r` was supplied — no `[0,1]` range check
exists. -/
theorem intake_never_rejects (st : PageState) (mockDetection : Bool)
    (pick : Nat) (r : ℚ) (now : Nat) :
    processFrameForFaceRecognition st mockDetection pick r now
        = (st, FrameOutcome.noDetection) ∨
    ∃ s : Student, s ∈ st.registeredStudents ∧
      s.id ∉ st.detectedFaces.map (fun d => d.studentId) ∧
      processFrameForFaceRecognition st mockDetection pick r now
        = ({st with detectedFaces :=
              st.detectedFaces ++ [newDetectionFor s r now]},
            FrameOutcome.detected (newDetectionFor s r now)) ∧
      (newDetectionFor s r now).confidence = 85/100 + r * (1/10) := by
  rcases processFrame_cases st mockDetection pick r now with hc | ⟨w, hw, _, hc⟩
  · exact Or.inl hc
  · obtain ⟨h1, h2⟩ := mem_availableStudents.mp hw
    exact Or.inr ⟨w, h1, h2, hc, rfl⟩

/-- **C2**: for every reachable page state, the payload a session end hands
to the results page partitions the roster: the present ids and the absent ids
are disjoint and together are exactly the roster member ids. -/
theorem terminated_session_partition {st : PageState} (h : Reachable st)
    {res : SessionResult} (hres : (endAttendanceSession st).2 = some res) :
    ((res.presentStudents.map fun d => d.studentId).toFinset ∩
        (res.absentStudents.map fun s => s.id).toFinset = ∅) ∧
    ((res.presentStudents.map fun d => d.studentId).toFinset ∪
        (res.absentStudents.map fun s => s.id).toFinset
      = (st.registeredStudents.map fun s => s.id).toFinset) := by
  obtain ⟨hp, ha⟩ := endSession_result hres
  rw [hp, ha]
  exact partition_of_inv (reachable_inv h)

/-- **C2** (witness at the concrete one-of-six session). -/
theorem terminated_session_partition_witness :
    ((demoResult.presentStudents.map fun d => d.studentId).toFinset ∩
        (demoResult.absentStudents.map fun s => s.id).toFinset = ∅) ∧
    ((demoResult.presentStudents.map fun d => d.studentId).toFinset ∪
        (demoResult.absentStudents.map fun s => s.id).toFinset
      = (demoDetected1.registeredStudents.map fun s => s.id).toFinset) :=
  terminated_session_partition demoDetected1_reachable rfl

/-- **C3** (counterexample): the figure the results page reports is a
*percentage*, not the rate `|presentSet| / |rosterMemberIds|`: with exactly
one of the six mock students present it reports `50/3` (≈ 16.67), which is
not `1/6`. -/
theorem attendance_rate_is_percentage :
    demoResult.presentStudents.length = 1 ∧
    demoDetected1.registeredStudents.length = 6 ∧
    attendancePercentage demoResult.presentStudents demoResult.absentStudents
        = 50/3 ∧
    ((50 : ℚ)/3) ≠ 1/6 := by
  refine ⟨by decide, by decide, ?_, by norm_num⟩
  have h1 : demoResult.presentStudents.length = 1 := by decide
  have h2 : demoResult.absentStudents.length = 5 := by decide
  rw [attendancePercentage, totalStudents, h1, h2]
  norm_num

/-- **C3** (amended): the reported figure is the attendance *percentage*
`100 · |presentSet| / |rosterMemberIds|`; for an empty roster it is `0`,
produced by the explicit `total > 0` guard (division here is total, so no
division fault is possible). -/
theorem attendance_percentage_formula {st : PageState} (h : Reachable st)
    {res : SessionResult} (hres : (endAttendanceSession st).2 = some res) :
    attendancePercentage res.presentStudents res.absentStudents
        = 100 * (res.presentStudents.length : ℚ)
            / (st.registeredStudents.length : ℚ) ∧
    (st.registeredStudents = [] →
      attendancePercentage res.presentStudents res.absentStudents = 0) := by
  obtain ⟨hp, ha⟩ := endSession_result hres
  have hsplit := present_absent_split (reachable_inv h)
  constructor
  · rw [hp, ha, attendancePercentage, totalStudents]
    split
    · next hpos =>
      have ht : ((st.detectedFaces.length : ℚ)
            + ((availableStudents st).length : ℚ))
          = (st.registeredStudents.length : ℚ) := by
        exact_mod_cast congrArg (Nat.cast (R := ℚ)) hsplit
      push_cast
      rw [ht]
      have hne : (st.registeredStudents.length : ℚ) ≠ 0 := by
        have : 0 < st.registeredStudents.length := by omega
        exact_mod_cast Nat.pos_iff_ne_zero.mp this
      field_simp
      ring
    · next hneg =>
      have h0 : st.detectedFaces.length = 0 := by omega
      rw [h0]
      norm_num
  · intro hempty
    have hlen0 : st.registeredStudents.length = 0 := by rw [hempty]; rfl
    have h0 : st.detectedFaces.length = 0 := by omega
    have ha0 : (availableStudents st).length = 0 := by omega
    rw [hp, ha, attendancePercentage, totalStudents, h0, ha0]
    norm_num

/-- **C3** (witness for the amended theorem at the one-of-six session). -/
theorem attendance_percentage_formula_witness :
    attendancePercentage demoResult.presentStudents demoResult.absentStudents
        = 100 * (demoResult.presentStudents.length : ℚ)
            / (demoDetected1.registeredStudents.length : ℚ) ∧
    (demoDetected1.registeredStudents = [] →
      attendancePercentage demoResult.presentStudents demoResult.absentStudents = 0) :=
  attendance_percentage_formula demoDetected1_reachable rfl

/-- **C4**: in every reachable state each roster member has at most one
accepted detection (the accepted `studentId`s are pairwise distinct), and a
frame submission never rewrites history: the accepted set only ever grows by
records of members that were not yet accepted, so a duplicate detection can
neither add a second entry for a member nor overwrite the first observation's
timestamp or confidence. -/
theorem dedup_at_most_one_per_member {st : PageState} (h : Reachable st)
    (refsReady mockDetection : Bool) (pick : Nat) (r : ℚ) (now : Nat) :
    (st.detectedFaces.map fun d => d.studentId).Nodup ∧
    ∃ tail,
      (detectAndRecognizeFaces st refsReady mockDetection pick r now).1.detectedFaces
          = st.detectedFaces ++ tail ∧
      ∀ d ∈ tail, d.studentId ∉ st.detectedFaces.map fun x => x.studentId := by
  refine ⟨(reachable_inv h).1, ?_⟩
  unfold detectAndRecognizeFaces
  split
  · rcases processFrame_cases st mockDetection pick r now with hc | ⟨w, hw, hlt, hc⟩
    · rw [hc]
      exact ⟨[], by simp, by simp⟩
    · rw [hc]
      refine ⟨[newDetectionFor w r now], rfl, ?_⟩
      intro d hd
      simp only [List.mem_singleton] at hd
      subst hd
      exact (mem_availableStudents.mp hw).2
  · exact ⟨[], by simp, by simp⟩

/-- **C4** (witness: a further frame at the one-of-six session — the
existing accepted record survives unchanged and anything appended is for a
member that was not yet accepted). -/
theorem dedup_at_most_one_per_member_witness :
    (demoDetected1.detectedFaces.map fun d => d.studentId).Nodup ∧
    ∃ tail,
      (detectAndRecognizeFaces demoDetected1 true true 0 (1/2) 9).1.detectedFaces
          = demoDetected1.detectedFaces ++ tail ∧
      ∀ d ∈ tail, d.studentId ∉ demoDetected1.detectedFaces.map fun x => x.studentId :=
  dedup_at_most_one_per_member demoDetected1_reachable true true 0 (1/2) 9

/-- **C8**: in every reachable state the accepted count is bounded by
`min(capacity, |roster|)`, and the bound carries over to the
`presentStudents` of any result a session end produces. -/
theorem present_count_bounded {st : PageState} (h : Reachable st) :
    st.detectedFaces.length
        ≤ min st.maxStudents st.registeredStudents.length ∧
    ∀ res : SessionResult, (endAttendanceSession st).2 = some res →
      res.presentStudents.length
        ≤ min st.maxStudents st.registeredStudents.length := by
  have hinv := reachable_inv h
  have h1 : st.detectedFaces.length ≤ st.maxStudents := hinv.2.2.2
  have h2 := detected_length_le_roster hinv
  refine ⟨by omega, ?_⟩
  intro res hres
  rw [(endSession_result hres).1]
  omega

/-- **C8** (witness at the concrete one-of-six session and its result). -/
theorem present_count_bounded_witness :
    demoDetected1.detectedFaces.length
        ≤ min demoDetected1.maxStudents demoDetected1.registeredStudents.length ∧
    demoResult.presentStudents.length
        ≤ min demoDetected1.maxStudents demoDetected1.registeredStudents.length :=
  ⟨(present_count_bounded demoDetected1_reachable).1,
   (present_count_bounded demoDetected1_reachable).2 demoResult rfl⟩

/-- **C10**: in every reachable state every accepted detection refers to a
registered roster member and carries a confidence in `[0.85, 0.95]` (the code
in fact generates it in `[0.85, 0.95)`). -/
theorem accepted_detection_in_roster_and_range {st : PageState}
    (h : Reachable st) :
    ∀ d ∈ st.detectedFaces,
      d.studentId ∈ st.registeredStudents.map (fun s => s.id) ∧
      (85 : ℚ)/100 ≤ d.confidence ∧ d.confidence ≤ (95 : ℚ)/100 := by
  intro d hd
  obtain ⟨h1, h2, h3⟩ := (reachable_inv h).2.2.1 d hd
  exact ⟨h1, h2, le_of_lt h3⟩

/-- **C10** (witness: the accepted record of the one-of-six session). -/
theorem accepted_detection_in_roster_and_range_witness :
    ("1" : String) ∈ demoDetected1.registeredStudents.map (fun s => s.id) ∧
    (85 : ℚ)/100 ≤ 85/100 + (1/2) * (1/10) ∧
    ((85 : ℚ)/100 + (1/2) * (1/10)) ≤ (95 : ℚ)/100 :=
  accepted_detection_in_roster_and_range demoDetected1_reachable
    { studentId := "1", name := "John Doe", rollNumber := "CS001",
      timestamp := 1, confidence := 85/100 + (1/2) * (1/10) }
    (List.Mem.head _)

end Attendance
